import Mathlib

/-!
Verification of the stdio JSON-RPC transport of mcptools
(src/pkg/transport/stdio.go) against its natural-language specification.

The Go code is shallowly embedded: the child process, its pipes and the
wall clock are replaced by explicit data (a list of already-split stdout
lines, strings of accumulated stderr bytes, a wait outcome), and every
side effect (spawning, sending a request, printing a diagnostic line,
closing stdin, killing the process) is recorded as an explicit event.
JSON parsing is performed by the Go standard library, which is external
to this repository; it is modelled as functions over an inductive JSON
value type, with each stdout line carrying its raw text together with
the result of the generic JSON parse.

The wire types Request and Response and the protocolVersion constant
live in a file of the transport package that is not part of the
sources provided; they are modelled from the spec (sections 3 and 6),
as noted on each definition.

DEBUG tracing (prints guarded by t.debug) is presentation only and is
not modelled as events.
-/

namespace Mcp

/-- A JSON value, as produced by the Go encoding/json package when
decoding one line of the child's stdout. -/
inductive JVal where
  | null : JVal
  | jbool : Bool → JVal
  | jnum : Int → JVal
  | jstr : String → JVal
  | jarr : List JVal → JVal
  | jobj : List (String × JVal) → JVal
  deriving Repr

/-- Field lookup in a decoded JSON object, as Go map indexing. -/
def jlookup (fields : List (String × JVal)) (key : String) : Option JVal :=
  match fields with
  | [] => none
  | (k, v) :: rest => if k = key then some v else jlookup rest key

/-- Modelled from the spec (section 3): the JSON-RPC error shape
carried inside a Response, with fields code and message. The Go struct
is in a transport-package file not among the provided sources. -/
structure RPCErrorPayload where
  code : Int
  message : String
  deriving Repr

/-- Modelled from the spec (sections 3 and 6): the Response envelope
with fields jsonrpc, id, result, error. The result field is a decoded
JSON object (Go map) or nil, matching the map result type returned by
Execute; the Go struct itself is in a transport-package file not among
the provided sources. -/
structure Response where
  jsonrpc : String
  id : Int
  result : Option (List (String × JVal))
  error : Option RPCErrorPayload
  deriving Repr

/-- Modelled from the spec (sections 3 and 6): the Request envelope
with fields jsonrpc, method, id (omitted for notifications), params.
The Go struct is in a transport-package file not among the provided
sources. -/
structure Request where
  jsonrpc : String
  method : String
  id : Option Int
  params : Option JVal
  deriving Repr

/-- Modelled from the spec (section 4.2): the fixed protocol version
string sent in the initialize request. The constant is defined in a
transport-package file not among the provided sources; its exact value
is irrelevant to every claim. -/
def protocolVersion : String := "2024-11-05"

/-- Go json.Unmarshal of one line into map of string to interface.
It succeeds on a JSON object (yielding the map) and on JSON null
(yielding the nil map, which behaves as empty under indexing), and
fails on every other top-level JSON kind. -/
def unmarshalMap : JVal → Option (List (String × JVal))
  | JVal.jobj fields => some fields
  | JVal.null => some []
  | _ => none

/-- Go json.Unmarshal of a decoded error object into the error payload
struct: absent or null fields keep their zero values, fields of the
wrong JSON kind fail the whole decode. -/
def unmarshalRPCError (fields : List (String × JVal)) : Option RPCErrorPayload :=
  match jlookup fields "code", jlookup fields "message" with
  | some (JVal.jnum c), some (JVal.jstr m) => some ⟨c, m⟩
  | some (JVal.jnum c), none => some ⟨c, ""⟩
  | some (JVal.jnum c), some JVal.null => some ⟨c, ""⟩
  | none, some (JVal.jstr m) => some ⟨0, m⟩
  | some JVal.null, some (JVal.jstr m) => some ⟨0, m⟩
  | none, none => some ⟨0, ""⟩
  | none, some JVal.null => some ⟨0, ""⟩
  | some JVal.null, none => some ⟨0, ""⟩
  | some JVal.null, some JVal.null => some ⟨0, ""⟩
  | _, _ => none

/-- Go json.Unmarshal of one line into the Response struct: unknown
fields are ignored, absent or null fields keep their zero values, a
field of the wrong JSON kind fails the decode, and a top-level null
decodes to the zero Response. -/
def unmarshalResponse : JVal → Option Response
  | JVal.null => some ⟨"", 0, none, none⟩
  | JVal.jobj fields => do
      let jsonrpc ← match jlookup fields "jsonrpc" with
        | some (JVal.jstr s) => some s
        | none => some ""
        | some JVal.null => some ""
        | _ => none
      let id ← match jlookup fields "id" with
        | some (JVal.jnum n) => some n
        | none => some 0
        | some JVal.null => some 0
        | _ => none
      let result ← match jlookup fields "result" with
        | some (JVal.jobj f) => some (some f)
        | none => some none
        | some JVal.null => some none
        | _ => none
      let errorField ← match jlookup fields "error" with
        | some (JVal.jobj f) =>
            match unmarshalRPCError f with
            | some e => some (some e)
            | none => none
        | none => some none
        | some JVal.null => some none
        | _ => none
      some ⟨jsonrpc, id, result, errorField⟩
  | _ => none

/-- One line read from the child's stdout: its raw text, and the
outcome of the generic JSON parse of that text (none when the bytes
are not valid JSON). -/
structure RawLine where
  raw : String
  json : Option JVal
  deriving Repr

/-- The severity-tagged diagnostic line that readResponse prints for a
notifications/message notification, switching on the level field with
ANSI color codes exactly as the source does. -/
def notifTag (level : String) (data : String) : String :=
  if level = "error" then "\x1b[31m[ERROR] " ++ data ++ "\x1b[0m"
  else if level = "warning" then "\x1b[33m[WARNING] " ++ data ++ "\x1b[0m"
  else if level = "alert" then "\x1b[35m[ALERT] " ++ data ++ "\x1b[0m"
  else if level = "info" then "\x1b[36m[INFO] " ++ data ++ "\x1b[0m"
  else "\x1b[37m[" ++ level ++ "] " ++ data ++ "\x1b[0m"

/-- The diagnostic lines the notification branch of readResponse prints
for one server-initiated notification (a line with a method field and a
nil id): a notifications/message with an object params prints one
tagged line, a notifications/message without object params prints
nothing, and every other notification prints the raw line. -/
def notifDiag (msg : List (String × JVal)) (raw : String) : List String :=
  match jlookup msg "method" with
  | some (JVal.jstr m) =>
      if m = "notifications/message" then
        match jlookup msg "params" with
        | some (JVal.jobj p) =>
            let level := match jlookup p "level" with
              | some (JVal.jstr s) => s
              | _ => ""
            let data := match jlookup p "data" with
              | some (JVal.jstr s) => s
              | _ => ""
            [notifTag level data]
        | _ => []
      else ["[Notification] " ++ raw]
  | _ => ["[Notification] " ++ raw]

/-- Whether the decoded map has a method key at all (Go comma-ok map
indexing: present even when the value is JSON null). -/
def hasMethodKey (msg : List (String × JVal)) : Bool :=
  (jlookup msg "method").isSome

/-- Whether indexing the decoded map at id yields Go nil: the key is
absent, or its value is JSON null. -/
def idIsNull (msg : List (String × JVal)) : Bool :=
  match jlookup msg "id" with
  | none => true
  | some JVal.null => true
  | _ => false

/-- readResponse of stdio.go: the read loop over the child's stdout.
The stream is the list of lines still to be read; exhausting it models
a read failure (end-of-stream), whose wrapped Go error text is
rendered with EOF. Returns the diagnostic lines printed and either an
error string or the accepted Response together with the unread rest of
the stream. -/
def readResponse (expectedID : Int) :
    List RawLine → List String × Except String (Response × List RawLine)
  | [] => ([], Except.error "error reading from stdout: EOF")
  | l :: rest =>
      if l.raw = "" then ([], Except.error "no response from command")
      else
        match l.json with
        | none =>
            ([], Except.error
              ("error unmarshaling message: invalid JSON, response: " ++ l.raw))
        | some j =>
            match unmarshalMap j with
            | none =>
                ([], Except.error
                  ("error unmarshaling message: invalid JSON, response: " ++ l.raw))
            | some msg =>
                if hasMethodKey msg ∧ idIsNull msg then
                  let d := notifDiag msg l.raw
                  let r := readResponse expectedID rest
                  (d ++ r.1, r.2)
                else
                  match unmarshalResponse j with
                  | none =>
                      ([], Except.error
                        ("error unmarshaling response: invalid response, response: "
                          ++ l.raw))
                  | some resp =>
                      if resp.id = expectedID ∨ resp.error.isSome then
                        match resp.error with
                        | some e =>
                            ([], Except.error
                              ("RPC error " ++ toString e.code ++ ": " ++ e.message))
                        | none => ([], Except.ok (resp, rest))
                      else readResponse expectedID rest

/-- stdioProcess of stdio.go: the state of one spawned child. The Go
struct holds the stdin and stdout pipe handles, the exec.Cmd handle,
the stderr buffer and the handshake flag; here cmdStarted stands for
cmd being non-nil, stdout is the list of lines the child will produce
that have not yet been read, and stderrBuf is the current content of
the stderr capture buffer. -/
structure stdioProcess where
  cmdStarted : Bool
  isInitializeSent : Bool
  stderrBuf : String
  stdout : List RawLine
  deriving Repr

/-- The zero stdioProcess, as the Go composite literal with no fields. -/
def emptyProcess : stdioProcess :=
  ⟨false, false, "", []⟩

/-- Stdio of stdio.go: the transport. nextID is a Go int, modelled as
an unbounded integer (no Execute sequence can realistically overflow a
64-bit counter that grows by at most two per call). -/
structure Stdio where
  process : Option stdioProcess
  command : List String
  nextID : Int
  debug : Bool
  showServerLogs : Bool
  deriving Repr

/-- NewStdio of stdio.go: a fresh transport with counter 1 and no
session; the debug flag comes from the MCP_DEBUG environment variable,
passed here explicitly. -/
def NewStdio (command : List String) (debug : Bool) : Stdio :=
  ⟨none, command, 1, debug, false⟩

/-- SetCloseAfterExecute of stdio.go: true stores nil (ephemeral
mode), false stores a pointer to a zero stdioProcess (persistent
mode). -/
def SetCloseAfterExecute (t : Stdio) (v : Bool) : Stdio :=
  if v then { t with process := none } else { t with process := some emptyProcess }

/-- SetShowServerLogs of stdio.go. -/
def SetShowServerLogs (t : Stdio) (v : Bool) : Stdio :=
  { t with showServerLogs := v }

/-- An observable side effect of one Execute call: spawning the child,
writing one request line to its stdin, printing one line to the
diagnostic stream, closing the child's stdin, killing the child. -/
inductive Event where
  | spawn : List String → Event
  | send : Request → Event
  | diag : String → Event
  | closeStdin : Event
  | kill : Event
  deriving Repr

/-- The outcome of the wait-with-timeout race in closeProcess: the
child exited within the 1-second timeout (with the error value that
cmd.Wait returned, nil for a clean exit), or the timeout elapsed
first. -/
inductive WaitOutcome where
  | exited : Option String → WaitOutcome
  | timeout : WaitOutcome
  deriving Repr

/-- The environment of one Execute call: everything the child process
and the operating system contribute. spawnOk and spawnStdout are used
only if this call spawns (cmd was nil); stderrInit, stderrCall and
stderrLate are the stderr bytes the child has added to the capture
buffer by, respectively, the handshake drain point, the post-response
drain point, and the closeProcess check; wait is the shutdown race
outcome. Writes to the child's stdin are assumed to succeed (no claim
concerns a failing send). -/
structure ExecEnv where
  spawnOk : Bool
  spawnStdout : List RawLine
  stderrInit : String
  stderrCall : String
  stderrLate : String
  wait : WaitOutcome
  deriving Repr

/-- The initialize request params literal built in stdio.go. -/
def initParams : JVal :=
  JVal.jobj
    [("clientInfo", JVal.jobj
        [("name", JVal.jstr "f/mcptools"), ("version", JVal.jstr "beta")]),
     ("protocolVersion", JVal.jstr protocolVersion),
     ("capabilities", JVal.jobj [])]

/-- The initialized notification literal built in stdio.go (no id, no
params). -/
def initNotification : Request :=
  ⟨"2.0", "notifications/initialized", none, none⟩

/-- Split a stderr buffer into the lines printStderr prints:
strings.SplitAfter on newline, trim the trailing newline, skip empty
lines. -/
def stderrLines (s : String) : List String :=
  (s.splitOn "\n").filter (fun l => l ≠ "")

/-- printStderr of stdio.go: with the show-server-logs flag set and a
non-empty buffer, print every buffered line prefixed and reset the
buffer; otherwise do nothing. -/
def printStderr (t : Stdio) (p : stdioProcess) : stdioProcess × List Event :=
  if ¬ t.showServerLogs then (p, [])
  else if p.stderrBuf ≠ "" then
    ({ p with stderrBuf := "" },
     (stderrLines p.stderrBuf).map (fun l => Event.diag ("[>] " ++ l)))
  else (p, [])

/-- closeProcess of stdio.go: a no-op in persistent mode (t.process
non-nil); in ephemeral mode, close stdin, then race the child's exit
against the 1-second timeout: a non-nil wait error together with a
non-empty stderr buffer yields the command error, any other exit is
success, and a timeout kills the child and yields success. -/
def closeProcess (t : Stdio) (p : stdioProcess) (w : WaitOutcome) :
    Option String × List Event :=
  if t.process.isSome then (none, [])
  else
    match w with
    | WaitOutcome.exited waitErr =>
        match waitErr with
        | some we =>
            if p.stderrBuf ≠ "" then
              (some ("command error: " ++ we), [Event.closeStdin])
            else (none, [Event.closeStdin])
        | none => (none, [Event.closeStdin])
    | WaitOutcome.timeout => (none, [Event.closeStdin, Event.kill])

/-- The initialize method of stdio.go (named initializeSession here
because initialize is a reserved word in Lean): send the initialize
request with the next id, read its response, then send the initialized
notification. Takes and returns the unread stdout stream and the id
counter; returns the events in order and the error, if any, already
wrapped as in the source. -/
def initializeSession (nextID : Int) (stream : List RawLine) :
    Int × List Event × Except String (List RawLine) :=
  let initRequest : Request := ⟨"2.0", "initialize", some nextID, some initParams⟩
  let r := readResponse nextID stream
  match r.2 with
  | Except.error e =>
      (nextID + 1,
       Event.send initRequest :: r.1.map Event.diag,
       Except.error ("init response failed: " ++ e))
  | Except.ok (_, rest) =>
      (nextID + 1,
       Event.send initRequest :: r.1.map Event.diag ++ [Event.send initNotification],
       Except.ok rest)

/-- The value Execute returns (the decoded result map or an error),
the transport state after the call, and the events of the call in
order. -/
structure ExecResult where
  result : Except String (Option (List (String × JVal)))
  state : Stdio
  events : List Event
  deriving Repr

/-- Execute of stdio.go. The local process variable starts from
t.process or a fresh zero session; the session is (re)spawned if its
cmd is nil; the handshake runs if the session is not yet initialized
(draining stderr on both its exit paths); the method request is sent
with a fresh id and its response read; stderr is drained again; and
closeProcess runs. In persistent mode the mutated session is stored
back through the pointer in t.process; in ephemeral mode it is
dropped. The stderr capture buffer grows by the environment's chunks
at the modelled drain points. -/
def Execute (t : Stdio) (env : ExecEnv) (method : String) (params : Option JVal) :
    ExecResult :=
  let p0 := t.process.getD emptyProcess
  let spawned : Except String (stdioProcess × List Event) :=
    if p0.cmdStarted then Except.ok (p0, [])
    else if t.command = [] then
      Except.error "no command specified for stdio transport"
    else if ¬ env.spawnOk then
      Except.error "error starting command: spawn failed"
    else
      Except.ok ({ p0 with cmdStarted := true, stderrBuf := "", stdout := env.spawnStdout },
        [Event.spawn t.command])
  match spawned with
  | Except.error e => ⟨Except.error e, t, []⟩
  | Except.ok (p1, ev1) =>
      let afterInit :
          Int × stdioProcess × List Event × Option String :=
        if p1.isInitializeSent then (t.nextID, p1, [], none)
        else
          let p1a := { p1 with stderrBuf := p1.stderrBuf ++ env.stderrInit }
          let ini := initializeSession t.nextID p1a.stdout
          match ini.2.2 with
          | Except.error e =>
              let pr := printStderr t p1a
              (ini.1, pr.1, ini.2.1 ++ pr.2, some e)
          | Except.ok rest =>
              let p1b := { p1a with stdout := rest }
              let pr := printStderr t p1b
              (ini.1, { pr.1 with isInitializeSent := true }, ini.2.1 ++ pr.2, none)
      match afterInit with
      | (nID1, p2, ev2, some e) =>
          ⟨Except.error e,
           { t with nextID := nID1,
                    process := if t.process.isSome then some p2 else none },
           ev1 ++ ev2⟩
      | (nID1, p2, ev2, none) =>
          let request : Request := ⟨"2.0", method, some nID1, params⟩
          let nID2 := nID1 + 1
          let rr := readResponse nID1 p2.stdout
          match rr.2 with
          | Except.error e =>
              let p3 := { p2 with stderrBuf := p2.stderrBuf ++ env.stderrCall }
              let pr := printStderr t p3
              ⟨Except.error e,
               { t with nextID := nID2,
                        process := if t.process.isSome then some pr.1 else none },
               ev1 ++ ev2 ++ [Event.send request] ++ rr.1.map Event.diag ++ pr.2⟩
          | Except.ok (resp, rest) =>
              let p3 := { p2 with stderrBuf := p2.stderrBuf ++ env.stderrCall,
                                  stdout := rest }
              let pr := printStderr t p3
              let p4 := { pr.1 with stderrBuf := pr.1.stderrBuf ++ env.stderrLate }
              let cl := closeProcess t p4 env.wait
              match cl.1 with
              | some e =>
                  ⟨Except.error e,
                   { t with nextID := nID2,
                            process := if t.process.isSome then some p4 else none },
                   ev1 ++ ev2 ++ [Event.send request] ++ rr.1.map Event.diag
                     ++ pr.2 ++ cl.2⟩
              | none =>
                  ⟨Except.ok resp.result,
                   { t with nextID := nID2,
                            process := if t.process.isSome then some p4 else none },
                   ev1 ++ ev2 ++ [Event.send request] ++ rr.1.map Event.diag
                     ++ pr.2 ++ cl.2⟩

/-- One action a caller can take on a Transport: an Execute call (with
its environment), or one of the two setters. -/
inductive Action where
  | exec : ExecEnv → String → Option JVal → Action
  | setCloseAfterExecute : Bool → Action
  | setShowServerLogs : Bool → Action

/-- Run one action: the new state, the events it produced, and the
Execute outcome when the action was a call. -/
def step (t : Stdio) :
    Action → Stdio × List Event × Option (Except String (Option (List (String × JVal))))
  | Action.exec env method params =>
      let r := Execute t env method params
      (r.state, r.events, some r.result)
  | Action.setCloseAfterExecute v => (SetCloseAfterExecute t v, [], none)
  | Action.setShowServerLogs v => (SetShowServerLogs t v, [], none)

/-- Run a list of actions from a state, collecting the final state,
the concatenated events, and the outcomes of the Execute calls in
order. -/
def run (t : Stdio) :
    List Action →
      Stdio × List Event × List (Except String (Option (List (String × JVal))))
  | [] => (t, [], [])
  | a :: as =>
      let s := step t a
      let r := run s.1 as
      (r.1, s.2.1 ++ r.2.1,
       match s.2.2 with
       | some o => o :: r.2.2
       | none => r.2.2)

/-- The request identifiers carried by the send events of a trace, in
order (notifications carry no identifier and are skipped). -/
def sentIDs (evs : List Event) : List Int :=
  evs.filterMap (fun e =>
    match e with
    | Event.send req => req.id
    | _ => none)

/-- The method names carried by the send events of a trace, in order. -/
def methodsSent (evs : List Event) : List String :=
  evs.filterMap (fun e =>
    match e with
    | Event.send req => some req.method
    | _ => none)

/-- The consecutive identifiers start, start + 1, ..., of length len. -/
def idRange (start : Int) (len : Nat) : List Int :=
  match len with
  | 0 => []
  | k + 1 => start :: idRange (start + 1) k

/-- Whether a trace contains a spawn event. -/
def hasSpawn (evs : List Event) : Bool :=
  evs.any (fun e =>
    match e with
    | Event.spawn _ => true
    | _ => false)

/-- Whether an Execute outcome is a success. -/
def isOkResult (r : Except String (Option (List (String × JVal)))) : Bool :=
  match r with
  | Except.ok _ => true
  | Except.error _ => false

/-- The result object of the sample ping exchange. -/
def pongResult : List (String × JVal) :=
  [("pong", JVal.jbool true)]

/-- A well-formed success Response line, as a server would write it:
jsonrpc, an integer id, an object result. -/
def okLine (id : Int) (result : List (String × JVal)) : RawLine :=
  ⟨"ok" ++ toString id,
   some (JVal.jobj
     [("jsonrpc", JVal.jstr "2.0"), ("id", JVal.jnum id),
      ("result", JVal.jobj result)])⟩

/-- A well-formed error Response line carrying a code and a message. -/
def errLine (id : Int) (code : Int) (message : String) : RawLine :=
  ⟨"err" ++ toString id,
   some (JVal.jobj
     [("jsonrpc", JVal.jstr "2.0"), ("id", JVal.jnum id),
      ("error", JVal.jobj
        [("code", JVal.jnum code), ("message", JVal.jstr message)])])⟩

/-- A notifications/message notification line with the given raw text,
level and data, in the shape the spec's data model gives that
notification sub-kind. -/
def msgNotifLine (raw level data : String) : RawLine :=
  ⟨raw,
   some (JVal.jobj
     [("jsonrpc", JVal.jstr "2.0"),
      ("method", JVal.jstr "notifications/message"),
      ("params", JVal.jobj
        [("level", JVal.jstr level), ("data", JVal.jstr data)])])⟩

/-- A two-line stdout stream for one complete ephemeral exchange: the
initialize response (id 1) followed by a ping response (id 2). -/
def sampleStdout : List RawLine :=
  [okLine 1 [], okLine 2 pongResult]

section ReadLoopLemmas

/-- Unfolding readResponse at a line the notification branch takes:
print the notification's diagnostics and keep reading. -/
theorem readResponse_notif (expectedID : Int) (l : RawLine) (rest : List RawLine)
    (j : JVal) (msg : List (String × JVal))
    (hraw : l.raw ≠ "") (hj : l.json = some j) (hm : unmarshalMap j = some msg)
    (hnotif : hasMethodKey msg ∧ idIsNull msg) :
    readResponse expectedID (l :: rest) =
      (notifDiag msg l.raw ++ (readResponse expectedID rest).1,
       (readResponse expectedID rest).2) := by
  simp only [readResponse, hj, hm, if_pos hnotif]
  simp [hraw]

/-- Unfolding readResponse at a line that parses as a Response with a
stale id and no error: the line is discarded and the loop continues. -/
theorem readResponse_skip (expectedID : Int) (l : RawLine) (rest : List RawLine)
    (j : JVal) (msg : List (String × JVal)) (resp : Response)
    (hraw : l.raw ≠ "") (hj : l.json = some j) (hm : unmarshalMap j = some msg)
    (hnotif : ¬ (hasMethodKey msg ∧ idIsNull msg))
    (hr : unmarshalResponse j = some resp)
    (hid : resp.id ≠ expectedID) (herr : resp.error = none) :
    readResponse expectedID (l :: rest) = readResponse expectedID rest := by
  simp only [readResponse, hj, hm, hr, if_neg hnotif]
  simp [hraw, hid, herr]

/-- Unfolding readResponse at a line that parses as a Response carrying
an error: the loop stops and fails with the remote code and message. -/
theorem readResponse_rpc_error (expectedID : Int) (l : RawLine) (rest : List RawLine)
    (j : JVal) (msg : List (String × JVal)) (resp : Response) (e : RPCErrorPayload)
    (hraw : l.raw ≠ "") (hj : l.json = some j) (hm : unmarshalMap j = some msg)
    (hnotif : ¬ (hasMethodKey msg ∧ idIsNull msg))
    (hr : unmarshalResponse j = some resp)
    (herr : resp.error = some e) :
    readResponse expectedID (l :: rest) =
      ([], Except.error ("RPC error " ++ toString e.code ++ ": " ++ e.message)) := by
  simp only [readResponse, hj, hm, hr, if_neg hnotif]
  simp [hraw, herr]

/-- Unfolding readResponse at a line that parses as a Response with the
expected id and no error: the loop stops and accepts it. -/
theorem readResponse_accept (expectedID : Int) (l : RawLine) (rest : List RawLine)
    (j : JVal) (msg : List (String × JVal)) (resp : Response)
    (hraw : l.raw ≠ "") (hj : l.json = some j) (hm : unmarshalMap j = some msg)
    (hnotif : ¬ (hasMethodKey msg ∧ idIsNull msg))
    (hr : unmarshalResponse j = some resp)
    (hid : resp.id = expectedID) (herr : resp.error = none) :
    readResponse expectedID (l :: rest) = ([], Except.ok (resp, rest)) := by
  simp only [readResponse, hj, hm, hr, if_neg hnotif]
  simp [hraw, hid, herr]

end ReadLoopLemmas

section ExecuteLemmas

/-- On a started, initialized persistent session, a read-loop failure
aborts the Execute call with that error. -/
theorem Execute_initialized_read_error (t : Stdio) (p : stdioProcess) (env : ExecEnv)
    (method : String) (params : Option JVal) (ds : List String) (e : String)
    (hp : t.process = some p) (hc : p.cmdStarted = true) (hi : p.isInitializeSent = true)
    (hread : readResponse t.nextID p.stdout = (ds, Except.error e)) :
    (Execute t env method params).result = Except.error e := by
  simp [Execute, hp, hc, hi, hread]

/-- On a started, initialized persistent session, an accepted Response
makes Execute return exactly that Response's result. -/
theorem Execute_initialized_read_ok (t : Stdio) (p : stdioProcess) (env : ExecEnv)
    (method : String) (params : Option JVal) (ds : List String)
    (resp : Response) (rest : List RawLine)
    (hp : t.process = some p) (hc : p.cmdStarted = true) (hi : p.isInitializeSent = true)
    (hread : readResponse t.nextID p.stdout = (ds, Except.ok (resp, rest))) :
    (Execute t env method params).result = Except.ok resp.result := by
  simp [Execute, hp, hc, hi, hread, closeProcess]

end ExecuteLemmas

section PrintStderrLemmas

/-- printStderr never changes the unread stdout stream. -/
theorem printStderr_stdout (t : Stdio) (p : stdioProcess) :
    ((printStderr t p).1).stdout = p.stdout := by
  by_cases h : t.showServerLogs <;> by_cases hb : p.stderrBuf = "" <;>
    simp [printStderr, h, hb]

/-- printStderr never changes the handshake flag. -/
theorem printStderr_isInit (t : Stdio) (p : stdioProcess) :
    ((printStderr t p).1).isInitializeSent = p.isInitializeSent := by
  by_cases h : t.showServerLogs <;> by_cases hb : p.stderrBuf = "" <;>
    simp [printStderr, h, hb]

/-- printStderr never changes the started flag. -/
theorem printStderr_cmdStarted (t : Stdio) (p : stdioProcess) :
    ((printStderr t p).1).cmdStarted = p.cmdStarted := by
  by_cases h : t.showServerLogs <;> by_cases hb : p.stderrBuf = "" <;>
    simp [printStderr, h, hb]

/-- With the show-server-logs flag set, printStderr leaves the stderr
buffer fully drained. -/
theorem printStderr_buf_true (t : Stdio) (p : stdioProcess)
    (h : t.showServerLogs = true) :
    ((printStderr t p).1).stderrBuf = "" := by
  by_cases hb : p.stderrBuf = "" <;> simp [printStderr, h, hb]

/-- Without the show-server-logs flag, printStderr leaves the stderr
buffer untouched. -/
theorem printStderr_buf_false (t : Stdio) (p : stdioProcess)
    (h : t.showServerLogs = false) :
    ((printStderr t p).1).stderrBuf = p.stderrBuf := by
  simp [printStderr, h]

end PrintStderrLemmas

section SpawnLemmas

/-- hasSpawn distributes over concatenation. -/
theorem hasSpawn_append (a b : List Event) :
    hasSpawn (a ++ b) = (hasSpawn a || hasSpawn b) := by
  simp [hasSpawn]

/-- The empty trace has no spawn. -/
theorem hasSpawn_nil : hasSpawn [] = false := rfl

/-- A send at the head does not affect hasSpawn. -/
theorem hasSpawn_send_cons (r : Request) (evs : List Event) :
    hasSpawn (Event.send r :: evs) = hasSpawn evs := by
  simp [hasSpawn]

/-- A diagnostic line at the head does not affect hasSpawn. -/
theorem hasSpawn_diag_cons (s : String) (evs : List Event) :
    hasSpawn (Event.diag s :: evs) = hasSpawn evs := by
  simp [hasSpawn]

/-- A spawn at the head makes hasSpawn true. -/
theorem hasSpawn_spawn_cons (c : List String) (evs : List Event) :
    hasSpawn (Event.spawn c :: evs) = true := by
  simp [hasSpawn]

/-- Diagnostic lines are not spawns. -/
theorem hasSpawn_diags (ds : List String) :
    hasSpawn (ds.map Event.diag) = false := by
  simp [hasSpawn]

/-- printStderr never spawns. -/
theorem hasSpawn_printStderr (t : Stdio) (p : stdioProcess) :
    hasSpawn (printStderr t p).2 = false := by
  by_cases h : t.showServerLogs <;> by_cases hb : p.stderrBuf = "" <;>
    simp [printStderr, h, hb, hasSpawn]

/-- closeProcess never spawns. -/
theorem hasSpawn_closeProcess (t : Stdio) (p : stdioProcess) (w : WaitOutcome) :
    hasSpawn (closeProcess t p w).2 = false := by
  by_cases hs : t.process.isSome
  · simp [closeProcess, hs, hasSpawn]
  · rcases w with we | _
    · rcases we with _ | w
      · simp [closeProcess, hs, hasSpawn]
      · by_cases hb : p.stderrBuf = "" <;> simp [closeProcess, hs, hb, hasSpawn]
    · simp [closeProcess, hs, hasSpawn]

/-- The handshake's first tuple component is always the incremented
counter. -/
theorem initializeSession_fst (n : Int) (s : List RawLine) :
    (initializeSession n s).1 = n + 1 := by
  simp only [initializeSession]
  split <;> rfl

/-- The handshake never spawns. -/
theorem hasSpawn_initializeSession (n : Int) (s : List RawLine) :
    hasSpawn (initializeSession n s).2.1 = false := by
  simp only [initializeSession]
  split <;> simp [hasSpawn]

/-- The events of one Execute call contain a spawn exactly when the
session had no started child, the command vector is non-empty, and the
operating system lets the spawn succeed: spawning is demand-driven. -/
theorem hasSpawn_Execute (t : Stdio) (env : ExecEnv) (m : String) (prm : Option JVal) :
    hasSpawn (Execute t env m prm).events
      = (!(t.process.getD emptyProcess).cmdStarted && !t.command.isEmpty
          && env.spawnOk) := by
  by_cases hc : (t.process.getD emptyProcess).cmdStarted = true
  · by_cases hinit : (t.process.getD emptyProcess).isInitializeSent = true
    · simp only [Execute]
      simp only [hc, hinit, if_pos, if_true]
      split <;> (try split) <;>
        simp [hc, hasSpawn_append, hasSpawn_nil, hasSpawn_send_cons, hasSpawn_diag_cons,
          hasSpawn_diags, hasSpawn_printStderr, hasSpawn_closeProcess]
    · rcases hio : (initializeSession t.nextID (t.process.getD emptyProcess).stdout).2.2
        with e | rest
      · simp only [Execute]
        simp only [hc, hinit, hio, if_pos, if_true, Bool.false_eq_true, if_false]
        simp [hc, hasSpawn_append, hasSpawn_nil, hasSpawn_send_cons, hasSpawn_diag_cons,
          hasSpawn_diags, hasSpawn_printStderr, hasSpawn_initializeSession]
      · simp only [Execute]
        simp only [hc, hinit, hio, if_pos, if_true, Bool.false_eq_true, if_false]
        split <;> (try split) <;>
          simp [hc, hasSpawn_append, hasSpawn_nil, hasSpawn_send_cons, hasSpawn_diag_cons,
            hasSpawn_diags, hasSpawn_printStderr, hasSpawn_closeProcess,
            hasSpawn_initializeSession]
  · by_cases hcmd : t.command = []
    · simp [Execute, hc, hcmd, hasSpawn]
    · by_cases hs : env.spawnOk = true
      · have hinit2 : ((t.process.getD emptyProcess).isInitializeSent = true) ∨
            ((t.process.getD emptyProcess).isInitializeSent = false) := by
          rcases (t.process.getD emptyProcess).isInitializeSent <;> simp
        rcases hinit2 with hinit | hinit
        · simp only [Execute]
          simp only [hc, hcmd, hs, hinit, not_true_eq_false, eq_self_iff_true,
            if_true, if_false, Bool.false_eq_true, ite_false, ite_true, not_false_iff]
          split <;> (try split) <;>
            simp [hasSpawn_append, hasSpawn_nil, hasSpawn_send_cons, hasSpawn_diag_cons,
              hasSpawn_diags, hasSpawn_printStderr, hasSpawn_closeProcess,
              hasSpawn_spawn_cons, hc, hcmd, hs]
        · rcases hio : (initializeSession t.nextID env.spawnStdout).2.2 with e | rest
          · simp only [Execute]
            simp only [hc, hcmd, hs, hinit, hio, not_true_eq_false, eq_self_iff_true,
              if_true, if_false, Bool.false_eq_true, ite_false, ite_true, not_false_iff]
            simp [hasSpawn_append, hasSpawn_nil, hasSpawn_send_cons, hasSpawn_diag_cons,
              hasSpawn_diags, hasSpawn_printStderr, hasSpawn_initializeSession,
              hasSpawn_spawn_cons, hc, hcmd, hs]
          · simp only [Execute]
            simp only [hc, hcmd, hs, hinit, hio, not_true_eq_false, eq_self_iff_true,
              if_true, if_false, Bool.false_eq_true, ite_false, ite_true, not_false_iff]
            split <;> (try split) <;>
              simp [hasSpawn_append, hasSpawn_nil, hasSpawn_send_cons, hasSpawn_diag_cons,
                hasSpawn_diags, hasSpawn_printStderr, hasSpawn_closeProcess,
                hasSpawn_initializeSession, hasSpawn_spawn_cons, hc, hcmd, hs]
      · simp [Execute, hc, hcmd, hs, hasSpawn]

end SpawnLemmas

section TraceLemmas

/-- sentIDs distributes over concatenation. -/
theorem sentIDs_append (a b : List Event) :
    sentIDs (a ++ b) = sentIDs a ++ sentIDs b := by
  simp [sentIDs]

/-- The empty trace sends nothing. -/
theorem sentIDs_nil : sentIDs [] = [] := rfl

/-- A spawn carries no identifier. -/
theorem sentIDs_spawn_cons (c : List String) (evs : List Event) :
    sentIDs (Event.spawn c :: evs) = sentIDs evs := by
  simp [sentIDs]

/-- A diagnostic line carries no identifier. -/
theorem sentIDs_diag_cons (d : String) (evs : List Event) :
    sentIDs (Event.diag d :: evs) = sentIDs evs := by
  simp [sentIDs]

/-- Closing stdin carries no identifier. -/
theorem sentIDs_closeStdin_cons (evs : List Event) :
    sentIDs (Event.closeStdin :: evs) = sentIDs evs := by
  simp [sentIDs]

/-- A kill carries no identifier. -/
theorem sentIDs_kill_cons (evs : List Event) :
    sentIDs (Event.kill :: evs) = sentIDs evs := by
  simp [sentIDs]

/-- A request with an identifier contributes it. -/
theorem sentIDs_send_some_cons (j m : String) (n : Int) (p : Option JVal)
    (evs : List Event) :
    sentIDs (Event.send ⟨j, m, some n, p⟩ :: evs) = n :: sentIDs evs := by
  simp [sentIDs]

/-- A notification (no identifier) contributes nothing. -/
theorem sentIDs_send_none_cons (j m : String) (p : Option JVal)
    (evs : List Event) :
    sentIDs (Event.send ⟨j, m, none, p⟩ :: evs) = sentIDs evs := by
  simp [sentIDs]

/-- Diagnostic lines carry no identifiers. -/
theorem sentIDs_diags (ds : List String) :
    sentIDs (ds.map Event.diag) = [] := by
  simp [sentIDs]

/-- printStderr sends no request. -/
theorem sentIDs_printStderr (t : Stdio) (p : stdioProcess) :
    sentIDs (printStderr t p).2 = [] := by
  by_cases h : t.showServerLogs <;> by_cases hb : p.stderrBuf = "" <;>
    simp [printStderr, h, hb, sentIDs]

/-- closeProcess sends no request. -/
theorem sentIDs_closeProcess (t : Stdio) (p : stdioProcess) (w : WaitOutcome) :
    sentIDs (closeProcess t p w).2 = [] := by
  by_cases hs : t.process.isSome
  · simp [closeProcess, hs, sentIDs]
  · rcases w with we | _
    · rcases we with _ | w
      · simp [closeProcess, hs, sentIDs]
      · by_cases hb : p.stderrBuf = "" <;> simp [closeProcess, hs, hb, sentIDs]
    · simp [closeProcess, hs, sentIDs]

/-- The handshake sends exactly one identifier: the initialize request's. -/
theorem sentIDs_initializeSession (n : Int) (s : List RawLine) :
    sentIDs (initializeSession n s).2.1 = [n] := by
  simp only [initializeSession]
  split <;> simp [sentIDs, initNotification]

/-- methodsSent distributes over concatenation. -/
theorem methodsSent_append (a b : List Event) :
    methodsSent (a ++ b) = methodsSent a ++ methodsSent b := by
  simp [methodsSent]

/-- The empty trace sends no method. -/
theorem methodsSent_nil : methodsSent [] = [] := rfl

/-- A spawn names no method. -/
theorem methodsSent_spawn_cons (c : List String) (evs : List Event) :
    methodsSent (Event.spawn c :: evs) = methodsSent evs := by
  simp [methodsSent]

/-- A diagnostic line names no method. -/
theorem methodsSent_diag_cons (d : String) (evs : List Event) :
    methodsSent (Event.diag d :: evs) = methodsSent evs := by
  simp [methodsSent]

/-- Closing stdin names no method. -/
theorem methodsSent_closeStdin_cons (evs : List Event) :
    methodsSent (Event.closeStdin :: evs) = methodsSent evs := by
  simp [methodsSent]

/-- A kill names no method. -/
theorem methodsSent_kill_cons (evs : List Event) :
    methodsSent (Event.kill :: evs) = methodsSent evs := by
  simp [methodsSent]

/-- A send contributes its request's method. -/
theorem methodsSent_send_cons (r : Request) (evs : List Event) :
    methodsSent (Event.send r :: evs) = r.method :: methodsSent evs := by
  simp [methodsSent]

/-- Diagnostic lines name no methods. -/
theorem methodsSent_diags (ds : List String) :
    methodsSent (ds.map Event.diag) = [] := by
  simp [methodsSent]

/-- printStderr names no method. -/
theorem methodsSent_printStderr (t : Stdio) (p : stdioProcess) :
    methodsSent (printStderr t p).2 = [] := by
  by_cases h : t.showServerLogs <;> by_cases hb : p.stderrBuf = "" <;>
    simp [printStderr, h, hb, methodsSent]

/-- closeProcess names no method. -/
theorem methodsSent_closeProcess (t : Stdio) (p : stdioProcess) (w : WaitOutcome) :
    methodsSent (closeProcess t p w).2 = [] := by
  by_cases hs : t.process.isSome
  · simp [closeProcess, hs, methodsSent]
  · rcases w with we | _
    · rcases we with _ | w
      · simp [closeProcess, hs, methodsSent]
      · by_cases hb : p.stderrBuf = "" <;> simp [closeProcess, hs, hb, methodsSent]
    · simp [closeProcess, hs, methodsSent]

/-- Consecutive identifier blocks concatenate. -/
theorem idRange_append (n : Int) (k1 k2 : Nat) :
    idRange n k1 ++ idRange (n + k1) k2 = idRange n (k1 + k2) := by
  induction k1 generalizing n with
  | zero => simp [idRange]
  | succ k ih =>
      have hcast : n + ((k : Int) + 1) = (n + 1) + k := by ring
      have hk : k + 1 + k2 = (k + k2) + 1 := by omega
      simp only [idRange, List.cons_append]
      push_cast
      rw [hcast, ih, hk]
      rfl

/-- An identifier block has as many entries as its length argument. -/
theorem idRange_length (n : Int) (k : Nat) :
    (idRange n k).length = k := by
  induction k generalizing n with
  | zero => rfl
  | succ k ih => simp [idRange, ih]

/-- The singleton identifier block. -/
theorem idRange_one (n : Int) : idRange n 1 = [n] := rfl

/-- The two-element identifier block. -/
theorem idRange_two (n : Int) : idRange n 2 = [n, n + 1] := rfl

end TraceLemmas

section IdentifierLemmas

/-- Execute sends some number of identifier-bearing requests; their
identifiers are exactly the consecutive block starting at the
counter's value, and the counter advances by exactly that number. -/
theorem Execute_ids (t : Stdio) (env : ExecEnv) (m : String) (prm : Option JVal) :
    ∃ k, sentIDs (Execute t env m prm).events = idRange t.nextID k ∧
      (Execute t env m prm).state.nextID = t.nextID + k := by
  by_cases hc : (t.process.getD emptyProcess).cmdStarted = true
  · by_cases hinit : (t.process.getD emptyProcess).isInitializeSent = true
    · simp only [Execute]
      simp only [hc, hinit, if_pos, if_true]
      split <;> (try split) <;>
        (refine ⟨1, ?_, ?_⟩ <;>
          simp [sentIDs_append, sentIDs_diags, sentIDs_printStderr,
            sentIDs_closeProcess, sentIDs_nil, sentIDs_spawn_cons, sentIDs_diag_cons,
            sentIDs_closeStdin_cons, sentIDs_kill_cons, sentIDs_send_some_cons,
            sentIDs_send_none_cons, idRange_one])
    · rcases hio : (readResponse t.nextID (t.process.getD emptyProcess).stdout).2
        with e | pr
      · simp only [Execute]
        simp only [hc, hinit, if_pos, if_true, Bool.false_eq_true, if_false,
          initializeSession, hio]
        refine ⟨1, ?_, ?_⟩ <;>
          simp [sentIDs_append, sentIDs_diags, sentIDs_printStderr,
            sentIDs_nil, sentIDs_spawn_cons, sentIDs_diag_cons,
            sentIDs_send_some_cons, sentIDs_send_none_cons, idRange_one]
      · rcases pr with ⟨r1, rest1⟩
        simp only [Execute]
        simp only [hc, hinit, if_pos, if_true, Bool.false_eq_true, if_false,
          initializeSession, hio]
        split <;> (try split) <;>
          (refine ⟨2, ?_, ?_⟩ <;>
            (simp [sentIDs_append, sentIDs_diags, sentIDs_printStderr,
              sentIDs_closeProcess, sentIDs_nil, sentIDs_spawn_cons, sentIDs_diag_cons,
              sentIDs_closeStdin_cons, sentIDs_kill_cons, sentIDs_send_some_cons,
              sentIDs_send_none_cons, idRange_two, initNotification,
              printStderr_stdout] <;> ring))
  · by_cases hcmd : t.command = []
    · simp only [Execute]
      simp only [hc, hcmd, Bool.false_eq_true, if_false, if_true, ite_true,
        ite_false, eq_self_iff_true, not_true_eq_false, not_false_iff]
      refine ⟨0, ?_, ?_⟩ <;> simp [sentIDs_nil, idRange]
    · by_cases hs : env.spawnOk = true
      · have hinit2 : ((t.process.getD emptyProcess).isInitializeSent = true) ∨
            ((t.process.getD emptyProcess).isInitializeSent = false) := by
          rcases (t.process.getD emptyProcess).isInitializeSent <;> simp
        rcases hinit2 with hinit | hinit
        · simp only [Execute]
          simp only [hc, hcmd, hs, hinit, not_true_eq_false, eq_self_iff_true,
            if_true, if_false, Bool.false_eq_true, ite_false, ite_true,
            not_false_iff, Option.getD_some]
          split <;> (try split) <;>
            (refine ⟨1, ?_, ?_⟩ <;>
              simp [sentIDs_append, sentIDs_diags, sentIDs_printStderr,
                sentIDs_closeProcess, sentIDs_nil, sentIDs_spawn_cons, sentIDs_diag_cons,
            sentIDs_closeStdin_cons, sentIDs_kill_cons, sentIDs_send_some_cons,
            sentIDs_send_none_cons, idRange_one])
        · rcases hio : (readResponse t.nextID env.spawnStdout).2 with e | pr
          · simp only [Execute]
            simp only [hc, hcmd, hs, hinit, hio, initializeSession,
              not_true_eq_false, eq_self_iff_true, if_true, if_false,
              Bool.false_eq_true, ite_false, ite_true, not_false_iff,
              Option.getD_some]
            refine ⟨1, ?_, ?_⟩ <;>
              simp [sentIDs_append, sentIDs_diags, sentIDs_printStderr,
                sentIDs_nil, sentIDs_spawn_cons, sentIDs_diag_cons,
                sentIDs_send_some_cons, sentIDs_send_none_cons, idRange_one]
          · rcases pr with ⟨r1, rest1⟩
            simp only [Execute]
            simp only [hc, hcmd, hs, hinit, hio, initializeSession,
              not_true_eq_false, eq_self_iff_true, if_true, if_false,
              Bool.false_eq_true, ite_false, ite_true, not_false_iff,
              Option.getD_some]
            split <;> (try split) <;>
              (refine ⟨2, ?_, ?_⟩ <;>
                (simp [sentIDs_append, sentIDs_diags, sentIDs_printStderr,
                  sentIDs_closeProcess, sentIDs_nil, sentIDs_spawn_cons, sentIDs_diag_cons,
                  sentIDs_closeStdin_cons, sentIDs_kill_cons, sentIDs_send_some_cons,
                  sentIDs_send_none_cons, idRange_two, initNotification,
                  printStderr_stdout] <;> ring))
      · simp only [Execute]
        simp only [hc, hcmd, hs, Bool.false_eq_true, if_false, if_true, ite_true,
          ite_false, eq_self_iff_true, not_true_eq_false, not_false_iff]
        refine ⟨0, ?_, ?_⟩ <;> simp [sentIDs_nil, idRange]

/-- step_ids lifts Execute_ids to a single action: the setters send
nothing and leave the counter alone. -/
theorem step_ids (t : Stdio) (a : Action) :
    ∃ k, sentIDs (step t a).2.1 = idRange t.nextID k ∧
      (step t a).1.nextID = t.nextID + k := by
  cases a with
  | exec env m prm =>
      obtain ⟨k, h1, h2⟩ := Execute_ids t env m prm
      exact ⟨k, by simpa [step] using h1, by simpa [step] using h2⟩
  | setCloseAfterExecute v =>
      refine ⟨0, ?_, ?_⟩ <;> cases v <;>
        simp [step, SetCloseAfterExecute, sentIDs_nil, idRange]
  | setShowServerLogs v =>
      refine ⟨0, ?_, ?_⟩ <;>
        simp [step, SetShowServerLogs, sentIDs_nil, idRange]

/-- Over any action sequence, the identifiers sent form one
consecutive block starting at the initial counter, and the counter
ends past the block. -/
theorem run_ids (acts : List Action) : ∀ t : Stdio,
    ∃ k, sentIDs (run t acts).2.1 = idRange t.nextID k ∧
      (run t acts).1.nextID = t.nextID + k := by
  induction acts with
  | nil =>
      intro t
      exact ⟨0, by simp [run, sentIDs_nil, idRange], by simp [run]⟩
  | cons a as ih =>
      intro t
      obtain ⟨k1, h1, h2⟩ := step_ids t a
      obtain ⟨k2, h3, h4⟩ := ih (step t a).1
      refine ⟨k1 + k2, ?_, ?_⟩
      · have hr : (run t (a :: as)).2.1 = (step t a).2.1 ++ (run (step t a).1 as).2.1 := by
          simp only [run]
        rw [hr, sentIDs_append, h1, h3, h2, idRange_append]
      · have hr : (run t (a :: as)).1 = (run (step t a).1 as).1 := by
          simp only [run]
        rw [hr, h4, h2]
        push_cast
        ring

end IdentifierLemmas

section MethodLemmas

/-- On a started, initialized persistent session, every Execute call
sends exactly one request, named by its method, and leaves the stored
session started and initialized. -/
theorem Execute_initialized_methods (t : Stdio) (p : stdioProcess) (env : ExecEnv)
    (m : String) (prm : Option JVal)
    (hp : t.process = some p) (hc : p.cmdStarted = true) (hi : p.isInitializeSent = true) :
    methodsSent (Execute t env m prm).events = [m] ∧
    ∃ p1, (Execute t env m prm).state.process = some p1 ∧
      p1.cmdStarted = true ∧ p1.isInitializeSent = true := by
  have hps : t.process.isSome = true := by simp [hp]
  simp only [Execute, hp, Option.getD_some, hc, hi, if_true, if_pos, closeProcess, hps]
  split <;>
    (constructor
     · simp [methodsSent_append, methodsSent_nil, methodsSent_spawn_cons,
         methodsSent_diag_cons, methodsSent_closeStdin_cons, methodsSent_kill_cons,
         methodsSent_send_cons, methodsSent_diags, methodsSent_printStderr]
     · exact ⟨_, rfl, by simp [printStderr_cmdStarted, hc],
         by simp [printStderr_isInit, hi]⟩)

/-- A successful first Execute call on a fresh persistent session sends
exactly the handshake pair followed by the caller's method, and leaves
the stored session started and initialized. -/
theorem Execute_first_methods (t : Stdio) (p : stdioProcess) (env : ExecEnv)
    (m : String) (prm : Option JVal)
    (hp : t.process = some p) (hc : p.cmdStarted = false)
    (hi : p.isInitializeSent = false)
    (hok : isOkResult (Execute t env m prm).result = true) :
    methodsSent (Execute t env m prm).events
        = ["initialize", "notifications/initialized", m] ∧
    ∃ p1, (Execute t env m prm).state.process = some p1 ∧
      p1.cmdStarted = true ∧ p1.isInitializeSent = true := by
  have hps : t.process.isSome = true := by simp [hp]
  by_cases hcmd : t.command = []
  · exfalso
    simp [Execute, hp, hc, hcmd, isOkResult] at hok
  · by_cases hs : env.spawnOk = true
    · rcases hio : (readResponse t.nextID env.spawnStdout).2 with e | pr
      · exfalso
        simp [Execute, hp, hc, hi, hcmd, hs, hio, initializeSession, isOkResult] at hok
      · rcases pr with ⟨r1, rest1⟩
        simp only [Execute, hp, Option.getD_some, hc, hi, hcmd, hs, hio,
          initializeSession, not_true_eq_false, eq_self_iff_true, if_true, if_false,
          Bool.false_eq_true, ite_false, ite_true, not_false_iff, closeProcess, hps]
        split
        · exfalso
          rename_i x e heq
          simp only [Execute, hp, Option.getD_some, hc, hi, hcmd, hs, hio,
            initializeSession, not_true_eq_false, eq_self_iff_true, if_true, if_false,
            Bool.false_eq_true, ite_false, ite_true, not_false_iff, closeProcess, hps,
            heq, isOkResult] at hok
        · constructor
          · simp [methodsSent_append, methodsSent_nil, methodsSent_spawn_cons,
              methodsSent_diag_cons, methodsSent_closeStdin_cons, methodsSent_kill_cons,
              methodsSent_send_cons, methodsSent_diags, methodsSent_printStderr,
              initNotification, printStderr_stdout]
          · exact ⟨_, rfl, by simp [printStderr_cmdStarted], by simp [printStderr_isInit]⟩
    · exfalso
      simp [Execute, hp, hc, hcmd, hs, isOkResult] at hok

/-- Over any call sequence on a started, initialized persistent
session, the methods sent are exactly the calls' methods: no further
handshake ever happens. -/
theorem run_initialized_methods (calls : List (ExecEnv × String × Option JVal)) :
    ∀ (t : Stdio) (p : stdioProcess), t.process = some p → p.cmdStarted = true →
    p.isInitializeSent = true →
    methodsSent (run t (calls.map (fun c => Action.exec c.1 c.2.1 c.2.2))).2.1
      = calls.map (fun c => c.2.1) := by
  induction calls with
  | nil => intro t p hp hc hi; simp [run, methodsSent_nil]
  | cons c cs ih =>
      intro t p hp hc hi
      obtain ⟨h1, p1, hp1, hc1, hi1⟩ :=
        Execute_initialized_methods t p c.1 c.2.1 c.2.2 hp hc hi
      have hr : (run t ((c :: cs).map (fun c => Action.exec c.1 c.2.1 c.2.2))).2.1
          = (step t (Action.exec c.1 c.2.1 c.2.2)).2.1
            ++ (run (step t (Action.exec c.1 c.2.1 c.2.2)).1
                  (cs.map (fun c => Action.exec c.1 c.2.1 c.2.2))).2.1 := by
        simp only [List.map_cons, run]
      rw [hr, methodsSent_append]
      have hstep1 : (step t (Action.exec c.1 c.2.1 c.2.2)).2.1
          = (Execute t c.1 c.2.1 c.2.2).events := rfl
      have hstep2 : (step t (Action.exec c.1 c.2.1 c.2.2)).1
          = (Execute t c.1 c.2.1 c.2.2).state := rfl
      rw [hstep1, h1, hstep2, ih _ p1 hp1 hc1 hi1]
      simp

end MethodLemmas

section Claims

/-- C1: in the read loop, a line that parses as a Response is accepted
as the answer only if its id equals the id of the request just sent or
its error field is non-null; a Response with a different id and a null
error is discarded and the loop continues unchanged; an accepted
Response carrying an error makes the call fail with the remote code
and message verbatim instead of returning a result; and a read-loop
failure on an initialized session is exactly the error Execute
returns. -/
theorem C1_response_acceptance
    (expectedID : Int) (l : RawLine) (rest : List RawLine) (j : JVal)
    (msg : List (String × JVal)) (resp : Response)
    (hraw : l.raw ≠ "") (hj : l.json = some j) (hm : unmarshalMap j = some msg)
    (hnotif : ¬ (hasMethodKey msg ∧ idIsNull msg))
    (hr : unmarshalResponse j = some resp) :
    (resp.id ≠ expectedID → resp.error = none →
      readResponse expectedID (l :: rest) = readResponse expectedID rest) ∧
    (∀ e, resp.error = some e →
      readResponse expectedID (l :: rest) =
        ([], Except.error ("RPC error " ++ toString e.code ++ ": " ++ e.message))) ∧
    (resp.id = expectedID → resp.error = none →
      readResponse expectedID (l :: rest) = ([], Except.ok (resp, rest))) ∧
    (∀ (t : Stdio) (p : stdioProcess) (env : ExecEnv) (m : String)
       (prm : Option JVal) (ds : List String) (e : String),
      t.process = some p → p.cmdStarted = true → p.isInitializeSent = true →
      readResponse t.nextID p.stdout = (ds, Except.error e) →
      (Execute t env m prm).result = Except.error e) := by
  refine ⟨?_, ?_, ?_, ?_⟩
  · intro hid herr
    exact readResponse_skip expectedID l rest j msg resp hraw hj hm hnotif hr hid herr
  · intro e herr
    exact readResponse_rpc_error expectedID l rest j msg resp e hraw hj hm hnotif hr herr
  · intro hid herr
    exact readResponse_accept expectedID l rest j msg resp hraw hj hm hnotif hr hid herr
  · intro t p env m prm ds e hp hc hi hread
    exact Execute_initialized_read_error t p env m prm ds e hp hc hi hread

/-- Witness for C1 at the spec's own example: a Response whose error is
code -32601, message Method not found, makes the call fail with both
verbatim. -/
theorem C1_response_acceptance_witness :
    (errLine 2 (-32601) "Method not found").raw ≠ "" ∧
    readResponse 2 [errLine 2 (-32601) "Method not found"] =
      ([], Except.error "RPC error -32601: Method not found") := by
  refine ⟨by decide, ?_⟩
  have h := C1_response_acceptance 2 (errLine 2 (-32601) "Method not found") [] _ _ _
    (by decide) rfl rfl (by decide) rfl
  have h2 := h.2.1 ⟨-32601, "Method not found"⟩ rfl
  simpa using h2

/-- C5: a stream of N notifications/message lines (each carrying the
level and data params the spec's data model gives that notification
kind) followed by the matching Response makes the read loop emit
exactly one severity-tagged diagnostic line per notification — error,
warning, alert and info recognized, any other level falling back to
the generic tag inside notifTag — never treats a notification as the
answer, and Execute returns exactly the Response's result,
independent of N. -/
theorem C5_notifications_emitted
    (expectedID : Int) (notifs : List (String × String × String))
    (respLine : RawLine) (rest : List RawLine)
    (jr : JVal) (msgr : List (String × JVal)) (resp : Response)
    (hnraw : ∀ n ∈ notifs, n.1 ≠ "")
    (hraw : respLine.raw ≠ "") (hj : respLine.json = some jr)
    (hm : unmarshalMap jr = some msgr)
    (hnotif : ¬ (hasMethodKey msgr ∧ idIsNull msgr))
    (hr : unmarshalResponse jr = some resp)
    (hid : resp.id = expectedID) (herr : resp.error = none) :
    readResponse expectedID
        ((notifs.map (fun n => msgNotifLine n.1 n.2.1 n.2.2)) ++ respLine :: rest)
      = (notifs.map (fun n => notifTag n.2.1 n.2.2), Except.ok (resp, rest)) ∧
    (∀ (t : Stdio) (p : stdioProcess) (env : ExecEnv) (m : String) (prm : Option JVal),
      t.process = some p → p.cmdStarted = true → p.isInitializeSent = true →
      p.stdout = (notifs.map (fun n => msgNotifLine n.1 n.2.1 n.2.2))
          ++ respLine :: rest →
      t.nextID = expectedID →
      (Execute t env m prm).result = Except.ok resp.result) := by
  have hmain : readResponse expectedID
        ((notifs.map (fun n => msgNotifLine n.1 n.2.1 n.2.2)) ++ respLine :: rest)
      = (notifs.map (fun n => notifTag n.2.1 n.2.2), Except.ok (resp, rest)) := by
    induction notifs with
    | nil =>
        simpa using
          readResponse_accept expectedID respLine rest jr msgr resp hraw hj hm
            hnotif hr hid herr
    | cons n ns ih =>
        have hnr : n.1 ≠ "" := hnraw n (List.mem_cons_self n ns)
        have hstep := readResponse_notif expectedID (msgNotifLine n.1 n.2.1 n.2.2)
          ((ns.map (fun n => msgNotifLine n.1 n.2.1 n.2.2)) ++ respLine :: rest)
          (JVal.jobj
            [("jsonrpc", JVal.jstr "2.0"),
             ("method", JVal.jstr "notifications/message"),
             ("params", JVal.jobj
               [("level", JVal.jstr n.2.1), ("data", JVal.jstr n.2.2)])])
          _ hnr rfl rfl (by simp [hasMethodKey, idIsNull, jlookup])
        have ihx := ih (fun q hq => hnraw q (List.mem_cons_of_mem n hq))
        simp only [List.map_cons, List.cons_append]
        rw [hstep, ihx]
        simp [notifDiag, jlookup, notifTag]
  refine ⟨hmain, ?_⟩
  intro t p env m prm hp hc hi hst hn
  exact Execute_initialized_read_ok t p env m prm _ resp rest hp hc hi
    (by rw [hn, hst, hmain])

/-- Witness for C5 at the spec's own scenario: one warning-level
notification before the ping reply yields exactly one warning-tagged
diagnostic line and the pong result. -/
theorem C5_notifications_emitted_witness :
    (okLine 2 pongResult).raw ≠ "" ∧
    readResponse 2
        [msgNotifLine "N1" "warning" "slow disk", okLine 2 pongResult] =
      ([notifTag "warning" "slow disk"],
       Except.ok (⟨"2.0", 2, some pongResult, none⟩, [])) := by
  refine ⟨by decide, ?_⟩
  have h := C5_notifications_emitted 2 [("N1", "warning", "slow disk")]
      (okLine 2 pongResult) [] _ _ _
      (by decide) (by decide) rfl rfl (by decide) rfl rfl rfl
  simpa using h.1

/-- C7: reaching end-of-stream while awaiting a line fails the call at
once with the read error (no retry, no resynchronization); a line that
is not valid JSON, or is valid JSON but not an object decodable as a
Go map, or passes the notification test yet fails to decode as a
Response, fails the call at once with an error whose message carries
the offending raw line; and on an initialized session the read-loop
error is exactly the error Execute returns. -/
theorem C7_read_parse_failures_fatal :
    (∀ (expectedID : Int), readResponse expectedID [] =
        ([], Except.error "error reading from stdout: EOF")) ∧
    (∀ (expectedID : Int) (l : RawLine) (rest : List RawLine),
      l.raw ≠ "" → l.json = none →
      readResponse expectedID (l :: rest) =
        ([], Except.error
          ("error unmarshaling message: invalid JSON, response: " ++ l.raw))) ∧
    (∀ (expectedID : Int) (l : RawLine) (rest : List RawLine) (j : JVal),
      l.raw ≠ "" → l.json = some j → unmarshalMap j = none →
      readResponse expectedID (l :: rest) =
        ([], Except.error
          ("error unmarshaling message: invalid JSON, response: " ++ l.raw))) ∧
    (∀ (expectedID : Int) (l : RawLine) (rest : List RawLine) (j : JVal)
       (msg : List (String × JVal)),
      l.raw ≠ "" → l.json = some j → unmarshalMap j = some msg →
      ¬ (hasMethodKey msg ∧ idIsNull msg) → unmarshalResponse j = none →
      readResponse expectedID (l :: rest) =
        ([], Except.error
          ("error unmarshaling response: invalid response, response: " ++ l.raw))) ∧
    (∀ (t : Stdio) (p : stdioProcess) (env : ExecEnv) (m : String)
       (prm : Option JVal) (ds : List String) (e : String),
      t.process = some p → p.cmdStarted = true → p.isInitializeSent = true →
      readResponse t.nextID p.stdout = (ds, Except.error e) →
      (Execute t env m prm).result = Except.error e) := by
  refine ⟨?_, ?_, ?_, ?_, ?_⟩
  · intro expectedID; rfl
  · intro expectedID l rest hraw hj
    simp [readResponse, hraw, hj]
  · intro expectedID l rest j hraw hj hm
    simp [readResponse, hraw, hj, hm]
  · intro expectedID l rest j msg hraw hj hm hnotif hr
    simp only [readResponse, hj, hm, hr, if_neg hnotif]
    simp [hraw]
  · intro t p env m prm ds e hp hc hi hread
    exact Execute_initialized_read_error t p env m prm ds e hp hc hi hread

/-- Witness for C7: a non-JSON line and a line whose id field has the
wrong JSON kind each abort the read loop with the raw line embedded in
the error message. -/
theorem C7_read_parse_failures_fatal_witness :
    (RawLine.mk "not json" none).raw ≠ "" ∧
    readResponse 1 [RawLine.mk "not json" none] =
      ([], Except.error
        ("error unmarshaling message: invalid JSON, response: not json")) ∧
    readResponse 1 [RawLine.mk "badresp" (some (JVal.jobj [("id", JVal.jstr "x")]))] =
      ([], Except.error
        ("error unmarshaling response: invalid response, response: badresp")) := by
  refine ⟨by decide, ?_, ?_⟩
  · simpa using
      C7_read_parse_failures_fatal.2.1 1 (RawLine.mk "not json" none) [] (by decide) rfl
  · simpa using
      C7_read_parse_failures_fatal.2.2.2.1 1
        (RawLine.mk "badresp" (some (JVal.jobj [("id", JVal.jstr "x")]))) []
        (JVal.jobj [("id", JVal.jstr "x")]) [("id", JVal.jstr "x")]
        (by decide) rfl rfl (by decide) rfl

/-- C2 counterexample: the claim that a CommandExitError does not
override an already-successful result is false on the code. At this
concrete input the response phase succeeds (the identical call with a
clean exit returns the pong result), yet with a failing exit and
non-empty captured stderr, Execute returns the command error and the
successful result is discarded. -/
theorem C2_command_exit_error_counterexample :
    (Execute (NewStdio ["srv"] false)
      ⟨true, sampleStdout, "oops\n", "", "", WaitOutcome.exited (some "exit status 1")⟩
      "ping" none).result = Except.error "command error: exit status 1" ∧
    (Execute (NewStdio ["srv"] false)
      ⟨true, sampleStdout, "oops\n", "", "", WaitOutcome.exited none⟩
      "ping" none).result = Except.ok (some pongResult) := by
  exact ⟨rfl, rfl⟩

/-- C2 as amended: in ephemeral mode (show-server-logs off, so the
stderr buffer is never drained), when the child exits within the
timeout with a non-nil wait error and the stderr buffer is non-empty,
Execute surfaces the CommandExitError in place of the already-obtained
successful result — the error does override it; when the wait error is
nil, or when the stderr buffer is empty, exit is treated as success
regardless of exit code and the result is returned. -/
theorem C2_command_exit_error
    (t : Stdio) (env : ExecEnv) (m : String) (prm : Option JVal)
    (ds1 ds2 : List String) (r1 resp : Response) (rest1 rest2 : List RawLine)
    (hp : t.process = none) (hlogs : t.showServerLogs = false)
    (hcmd : t.command ≠ []) (hspawn : env.spawnOk = true)
    (h1 : readResponse t.nextID env.spawnStdout = (ds1, Except.ok (r1, rest1)))
    (h2 : readResponse (t.nextID + 1) rest1 = (ds2, Except.ok (resp, rest2))) :
    (∀ w, env.wait = WaitOutcome.exited (some w) →
      env.stderrInit ++ env.stderrCall ++ env.stderrLate ≠ "" →
      (Execute t env m prm).result = Except.error ("command error: " ++ w)) ∧
    (env.wait = WaitOutcome.exited none →
      (Execute t env m prm).result = Except.ok resp.result) ∧
    (∀ w, env.wait = WaitOutcome.exited (some w) →
      env.stderrInit = "" → env.stderrCall = "" → env.stderrLate = "" →
      (Execute t env m prm).result = Except.ok resp.result) := by
  refine ⟨?_, ?_, ?_⟩
  · intro w hw hbuf
    simp [Execute, hp, hlogs, hcmd, hspawn, emptyProcess, initializeSession, h1, h2,
      hw, closeProcess, printStderr_stdout, printStderr_isInit, printStderr_buf_false,
      hbuf]
  · intro hw
    simp [Execute, hp, hlogs, hcmd, hspawn, emptyProcess, initializeSession, h1, h2,
      hw, closeProcess, printStderr_stdout, printStderr_isInit, printStderr_buf_false]
  · intro w hw hi hc hl
    simp [Execute, hp, hlogs, hcmd, hspawn, emptyProcess, initializeSession, h1, h2,
      hw, closeProcess, printStderr_stdout, printStderr_isInit, printStderr_buf_false,
      hi, hc, hl]

/-- Witness for the amended C2: a failing exit with captured stderr
turns the successful ping call into the command error. -/
theorem C2_command_exit_error_witness :
    (["srv"] : List String) ≠ [] ∧
    (Execute (NewStdio ["srv"] false)
      ⟨true, sampleStdout, "boom\n", "", "", WaitOutcome.exited (some "exit status 2")⟩
      "ping" none).result = Except.error "command error: exit status 2" := by
  refine ⟨by simp, ?_⟩
  have h := C2_command_exit_error (NewStdio ["srv"] false)
      ⟨true, sampleStdout, "boom\n", "", "", WaitOutcome.exited (some "exit status 2")⟩
      "ping" none _ _ _ _ _ _ rfl rfl (by simp [NewStdio]) rfl rfl rfl
  exact h.1 "exit status 2" rfl (by decide)

/-- C6: in ephemeral mode, when the child does not exit within the
1-second timeout after stdin is closed, the transport closes stdin,
force-kills the process, and Execute still returns the already-obtained
result — the timeout path produces no user-facing error. -/
theorem C6_timeout_force_kill
    (t : Stdio) (env : ExecEnv) (m : String) (prm : Option JVal)
    (ds1 ds2 : List String) (r1 resp : Response) (rest1 rest2 : List RawLine)
    (hp : t.process = none)
    (hcmd : t.command ≠ []) (hspawn : env.spawnOk = true)
    (h1 : readResponse t.nextID env.spawnStdout = (ds1, Except.ok (r1, rest1)))
    (h2 : readResponse (t.nextID + 1) rest1 = (ds2, Except.ok (resp, rest2)))
    (hw : env.wait = WaitOutcome.timeout) :
    (Execute t env m prm).result = Except.ok resp.result ∧
    Event.kill ∈ (Execute t env m prm).events ∧
    Event.closeStdin ∈ (Execute t env m prm).events := by
  simp [Execute, hp, hcmd, hspawn, emptyProcess, initializeSession, h1, h2, hw,
    closeProcess, printStderr_stdout, printStderr_isInit]

/-- Witness for C6: the concrete ping exchange under a wait timeout
returns the pong result and kills the child. -/
theorem C6_timeout_force_kill_witness :
    (["srv"] : List String) ≠ [] ∧
    (Execute (NewStdio ["srv"] false)
      ⟨true, sampleStdout, "", "", "", WaitOutcome.timeout⟩ "ping" none).result
        = Except.ok (some pongResult) ∧
    Event.kill ∈ (Execute (NewStdio ["srv"] false)
      ⟨true, sampleStdout, "", "", "", WaitOutcome.timeout⟩ "ping" none).events := by
  refine ⟨by simp, ?_, ?_⟩
  · exact (C6_timeout_force_kill (NewStdio ["srv"] false)
      ⟨true, sampleStdout, "", "", "", WaitOutcome.timeout⟩ "ping" none
      _ _ _ _ _ _ rfl (by simp [NewStdio]) rfl rfl rfl rfl).1
  · exact (C6_timeout_force_kill (NewStdio ["srv"] false)
      ⟨true, sampleStdout, "", "", "", WaitOutcome.timeout⟩ "ping" none
      _ _ _ _ _ _ rfl (by simp [NewStdio]) rfl rfl rfl rfl).2.1

/-- C10: with the show-server-logs flag enabled, printStderr fully
drains the stderr buffer right after the successful response is read
and before closeProcess runs, so closeProcess's non-empty-stderr test
sees only bytes that arrived after that drain: with no late bytes, a
failing exit whose stderr was already printed is silently treated as
success (whatever arrived before the drain), and only late bytes can
turn the failing exit into the command error. -/
theorem C10_stderr_drained_before_close
    (t : Stdio) (env : ExecEnv) (m : String) (prm : Option JVal)
    (ds1 ds2 : List String) (r1 resp : Response) (rest1 rest2 : List RawLine)
    (w : String)
    (hp : t.process = none) (hlogs : t.showServerLogs = true)
    (hcmd : t.command ≠ []) (hspawn : env.spawnOk = true)
    (h1 : readResponse t.nextID env.spawnStdout = (ds1, Except.ok (r1, rest1)))
    (h2 : readResponse (t.nextID + 1) rest1 = (ds2, Except.ok (resp, rest2)))
    (hw : env.wait = WaitOutcome.exited (some w)) :
    (env.stderrLate = "" → (Execute t env m prm).result = Except.ok resp.result) ∧
    (env.stderrLate ≠ "" →
      (Execute t env m prm).result = Except.error ("command error: " ++ w)) := by
  constructor
  · intro hl
    simp [Execute, hp, hlogs, hcmd, hspawn, emptyProcess, initializeSession, h1, h2,
      hw, closeProcess, printStderr_stdout, printStderr_isInit, printStderr_buf_true,
      hl]
  · intro hl
    simp [Execute, hp, hlogs, hcmd, hspawn, emptyProcess, initializeSession, h1, h2,
      hw, closeProcess, printStderr_stdout, printStderr_isInit, printStderr_buf_true,
      hl]

/-- Witness for C10: with server logs shown, stderr that was printed
with the response does not turn a failing exit into an error; the same
call with late stderr bytes does. -/
theorem C10_stderr_drained_before_close_witness :
    (SetShowServerLogs (NewStdio ["srv"] false) true).showServerLogs = true ∧
    (Execute (SetShowServerLogs (NewStdio ["srv"] false) true)
      ⟨true, sampleStdout, "noise\n", "", "", WaitOutcome.exited (some "exit status 1")⟩
      "ping" none).result = Except.ok (some pongResult) ∧
    (Execute (SetShowServerLogs (NewStdio ["srv"] false) true)
      ⟨true, sampleStdout, "noise\n", "", "late", WaitOutcome.exited (some "exit status 1")⟩
      "ping" none).result = Except.error "command error: exit status 1" := by
  refine ⟨rfl, ?_, ?_⟩
  · exact (C10_stderr_drained_before_close
      (SetShowServerLogs (NewStdio ["srv"] false) true)
      ⟨true, sampleStdout, "noise\n", "", "", WaitOutcome.exited (some "exit status 1")⟩
      "ping" none _ _ _ _ _ _ "exit status 1"
      rfl rfl (by simp [SetShowServerLogs, NewStdio]) rfl rfl rfl rfl).1 rfl
  · exact (C10_stderr_drained_before_close
      (SetShowServerLogs (NewStdio ["srv"] false) true)
      ⟨true, sampleStdout, "noise\n", "", "late", WaitOutcome.exited (some "exit status 1")⟩
      "ping" none _ _ _ _ _ _ "exit status 1"
      rfl rfl (by simp [SetShowServerLogs, NewStdio]) rfl rfl rfl rfl).2 (by decide)

/-- C3: starting from a fresh transport, over any sequence of actions
(Execute calls under arbitrary environments, interleaved with mode
toggles — including ephemeral teardowns and respawns), the request
identifiers sent on the wire are exactly 1, 2, 3, ...: the counter
starts at 1, every identifier sent is one more than the previous one,
none is ever reused or reset, and the counter always sits just past
the block of identifiers already sent. -/
theorem C3_identifiers_strictly_increasing
    (command : List String) (dbg : Bool) (acts : List Action) :
    sentIDs (run (NewStdio command dbg) acts).2.1
        = idRange 1 (sentIDs (run (NewStdio command dbg) acts).2.1).length ∧
    (run (NewStdio command dbg) acts).1.nextID
        = 1 + ((sentIDs (run (NewStdio command dbg) acts).2.1).length : Int) := by
  obtain ⟨k, h1, h2⟩ := run_ids acts (NewStdio command dbg)
  have hn : (NewStdio command dbg).nextID = 1 := rfl
  rw [hn] at h1 h2
  have hlen : (sentIDs (run (NewStdio command dbg) acts).2.1).length = k := by
    rw [h1, idRange_length]
  rw [hlen, h1, h2]
  exact ⟨rfl, rfl⟩

/-- C4: on a persistent session (SetCloseAfterExecute false right
after construction), any non-empty sequence of successful Execute
calls sends exactly the handshake pair — initialize, then the
notifications/initialized notification — once, at the very front of
the wire trace, followed by exactly one request per call named by its
method: the handshake happens exactly once and before any other
method, however many calls follow. -/
theorem C4_handshake_exactly_once (command : List String) (dbg : Bool)
    (calls : List (ExecEnv × String × Option JVal))
    (hne : calls ≠ [])
    (hok : ∀ o ∈ (run (SetCloseAfterExecute (NewStdio command dbg) false)
            (calls.map (fun c => Action.exec c.1 c.2.1 c.2.2))).2.2,
          isOkResult o = true) :
    methodsSent (run (SetCloseAfterExecute (NewStdio command dbg) false)
        (calls.map (fun c => Action.exec c.1 c.2.1 c.2.2))).2.1
      = "initialize" :: "notifications/initialized" :: calls.map (fun c => c.2.1) := by
  rcases calls with _ | ⟨c, cs⟩
  · exact absurd rfl hne
  · set t0 := SetCloseAfterExecute (NewStdio command dbg) false with ht0
    have hp0 : t0.process = some emptyProcess := rfl
    have houtc : (run t0 ((c :: cs).map (fun c => Action.exec c.1 c.2.1 c.2.2))).2.2
        = (Execute t0 c.1 c.2.1 c.2.2).result
          :: (run (step t0 (Action.exec c.1 c.2.1 c.2.2)).1
                (cs.map (fun c => Action.exec c.1 c.2.1 c.2.2))).2.2 := by
      simp only [List.map_cons, run, step]
    have hok1 : isOkResult (Execute t0 c.1 c.2.1 c.2.2).result = true := by
      apply hok
      rw [houtc]
      exact List.mem_cons_self _ _
    obtain ⟨h1, p1, hp1, hc1, hi1⟩ :=
      Execute_first_methods t0 emptyProcess c.1 c.2.1 c.2.2 hp0 rfl rfl hok1
    have hr : (run t0 ((c :: cs).map (fun c => Action.exec c.1 c.2.1 c.2.2))).2.1
        = (step t0 (Action.exec c.1 c.2.1 c.2.2)).2.1
          ++ (run (step t0 (Action.exec c.1 c.2.1 c.2.2)).1
                (cs.map (fun c => Action.exec c.1 c.2.1 c.2.2))).2.1 := by
      simp only [List.map_cons, run]
    rw [hr, methodsSent_append]
    have hstep1 : (step t0 (Action.exec c.1 c.2.1 c.2.2)).2.1
        = (Execute t0 c.1 c.2.1 c.2.2).events := rfl
    have hstep2 : (step t0 (Action.exec c.1 c.2.1 c.2.2)).1
        = (Execute t0 c.1 c.2.1 c.2.2).state := rfl
    rw [hstep1, h1, hstep2, run_initialized_methods cs _ p1 hp1 hc1 hi1]
    simp

/-- Witness for C4: two successful calls on a persistent session send
initialize, the initialized notification, then the two methods, in
that order, with the handshake only once. -/
theorem C4_handshake_exactly_once_witness :
    ([((⟨true, [okLine 1 [], okLine 2 [], okLine 3 pongResult], "", "", "",
          WaitOutcome.exited none⟩ : ExecEnv), "m1", (none : Option JVal)),
      ((⟨true, [], "", "", "", WaitOutcome.exited none⟩ : ExecEnv), "m2",
          (none : Option JVal))] ≠
        ([] : List (ExecEnv × String × Option JVal))) ∧
    methodsSent (run (SetCloseAfterExecute (NewStdio ["srv"] false) false)
        (([((⟨true, [okLine 1 [], okLine 2 [], okLine 3 pongResult], "", "", "",
              WaitOutcome.exited none⟩ : ExecEnv), "m1", (none : Option JVal)),
           ((⟨true, [], "", "", "", WaitOutcome.exited none⟩ : ExecEnv), "m2",
              (none : Option JVal))]).map
          (fun c => Action.exec c.1 c.2.1 c.2.2))).2.1
      = ["initialize", "notifications/initialized", "m1", "m2"] := by
  refine ⟨by simp, ?_⟩
  have h := C4_handshake_exactly_once ["srv"] false
    [((⟨true, [okLine 1 [], okLine 2 [], okLine 3 pongResult], "", "", "",
        WaitOutcome.exited none⟩ : ExecEnv), "m1", (none : Option JVal)),
     ((⟨true, [], "", "", "", WaitOutcome.exited none⟩ : ExecEnv), "m2",
        (none : Option JVal))]
    (by simp) (by decide)
  simpa using h

/-- C8: a fresh transport holds no session at construction; an
Execute call on a session with no started child and an empty command
vector fails with the spawn error and performs no observable action;
and an Execute call spawns exactly when the session has no started
child, the command vector is non-empty, and the operating system
cooperates — so spawning happens only on the first call, or on the
first call after an ephemeral teardown, never at construction. -/
theorem C8_lazy_spawn
    (command : List String) (dbg : Bool) (t : Stdio) (env : ExecEnv)
    (m : String) (prm : Option JVal) :
    (NewStdio command dbg).process = none ∧
    ((t.process.getD emptyProcess).cmdStarted = false → t.command = [] →
      (Execute t env m prm).result =
          Except.error "no command specified for stdio transport" ∧
      (Execute t env m prm).events = []) ∧
    (hasSpawn (Execute t env m prm).events
      = (!(t.process.getD emptyProcess).cmdStarted && !t.command.isEmpty
          && env.spawnOk)) := by
  refine ⟨rfl, ?_, hasSpawn_Execute t env m prm⟩
  intro hc hcmd
  constructor <;> simp [Execute, hc, hcmd]

/-- Witness for C8: a transport built over an empty command vector
fails its first call with the spawn error and does nothing, and a
non-empty command on a fresh ephemeral transport does spawn. -/
theorem C8_lazy_spawn_witness :
    ((NewStdio [] false).process.getD emptyProcess).cmdStarted = false ∧
    (NewStdio [] false).command = [] ∧
    (Execute (NewStdio [] false)
        ⟨true, sampleStdout, "", "", "", WaitOutcome.exited none⟩ "ping" none).result
      = Except.error "no command specified for stdio transport" ∧
    hasSpawn (Execute (NewStdio ["srv"] false)
        ⟨true, sampleStdout, "", "", "", WaitOutcome.exited none⟩ "ping" none).events
      = true := by
  refine ⟨rfl, rfl, ?_, ?_⟩
  · exact ((C8_lazy_spawn [] false (NewStdio [] false)
      ⟨true, sampleStdout, "", "", "", WaitOutcome.exited none⟩ "ping" none).2.1
      rfl rfl).1
  · have h := (C8_lazy_spawn ["srv"] false (NewStdio ["srv"] false)
      ⟨true, sampleStdout, "", "", "", WaitOutcome.exited none⟩ "ping" none).2.2
    simpa using h

/-- C9: SetCloseAfterExecute false always stores a fresh zero session
— not started, not initialized — discarding whatever session was there
before, without emitting any event (no stdin close, no kill); the next
Execute call therefore re-spawns the child and repeats the full
handshake, even if a live initialized session existed before the
call. -/
theorem C9_set_persistent_resets_session
    (t : Stdio) (env : ExecEnv) (m : String) (prm : Option JVal)
    (hcmd : t.command ≠ []) (hspawn : env.spawnOk = true) :
    step t (Action.setCloseAfterExecute false)
        = ({ t with process := some emptyProcess }, [], none) ∧
    emptyProcess.cmdStarted = false ∧
    emptyProcess.isInitializeSent = false ∧
    (Execute (SetCloseAfterExecute t false) env m prm).events.take 2
        = [Event.spawn t.command,
           Event.send ⟨"2.0", "initialize", some t.nextID, some initParams⟩] := by
  refine ⟨rfl, rfl, rfl, ?_⟩
  rcases hio : (readResponse t.nextID env.spawnStdout).2 with e | pr
  · simp [Execute, SetCloseAfterExecute, emptyProcess, hcmd, hspawn,
      initializeSession, hio]
  · rcases pr with ⟨r1, rest1⟩
    simp only [Execute, SetCloseAfterExecute, emptyProcess]
    simp only [hcmd, hspawn, hio, initializeSession, not_true_eq_false,
      eq_self_iff_true, if_true, if_false, Bool.false_eq_true, ite_false, ite_true,
      not_false_iff, Option.getD_some]
    split <;> (try split) <;> simp

/-- Witness for C9: resetting a transport that already holds a live
initialized session makes the next call spawn and send initialize
again. -/
theorem C9_set_persistent_resets_session_witness :
    ((⟨some ⟨true, true, "", []⟩, ["srv"], 5, false, false⟩ : Stdio).command ≠ []) ∧
    (Execute (SetCloseAfterExecute
        (⟨some ⟨true, true, "", []⟩, ["srv"], 5, false, false⟩ : Stdio) false)
      ⟨true, [okLine 5 [], okLine 6 pongResult], "", "", "",
        WaitOutcome.exited none⟩ "ping" none).events.take 2
      = [Event.spawn ["srv"],
         Event.send ⟨"2.0", "initialize", some 5, some initParams⟩] := by
  refine ⟨by simp, ?_⟩
  exact (C9_set_persistent_resets_session
    (⟨some ⟨true, true, "", []⟩, ["srv"], 5, false, false⟩ : Stdio)
    ⟨true, [okLine 5 [], okLine 6 pongResult], "", "", "",
      WaitOutcome.exited none⟩ "ping" none (by simp) rfl).2.2.2

end Claims

end Mcp
